import Mathlib

/- Verification of the OpenGamma regime-sync client (src/OpenGamma.cs).

   Shallow embedding conventions:
   * C# strings are modeled as lists of characters (`Chars`);
   * C# `double` values are modeled as rationals (the producer sends decimal
     text, and no claim depends on binary floating-point artifacts); rational
     constants are built through `natQ`/`intQ` so that concrete runs reduce;
   * C# `int` is modeled as `Int` with the 32-bit range check inside the
     faithful model of `int.TryParse`;
   * `Math.Round(double)` is modeled by `mathRound`, C#'s round-half-to-even;
   * the mutable indicator fields guarded by `lockObj` are gathered into the
     explicit state record `OGState`, and `ParseRegimeUpdate` becomes a pure
     state transformer (`applyPhase1` for the part run on the socket thread,
     `applyDispatch` for the closure posted to the chart dispatcher, which
     only runs when the chart control exists). -/

set_option maxRecDepth 10000

abbrev Chars := List Char

/-- Embed a natural number into ℚ (already in lowest terms). -/
def natQ (n : Nat) : ℚ := ⟨Int.ofNat n, 1, one_ne_zero, Nat.coprime_one_right _⟩

/-- Embed an integer into ℚ (already in lowest terms). -/
def intQ (n : Int) : ℚ := ⟨n, 1, one_ne_zero, Nat.coprime_one_right _⟩

/-- Whitespace test used by the embedded scanner (`char.IsWhiteSpace` on the
ASCII characters the wire format can contain). -/
def isWsChar (c : Char) : Bool :=
  c == ' ' || c == '\t' || c == '\n' || c == '\r'

/-- `String.Trim`: strip whitespace from both ends. -/
def trimWs (s : Chars) : Chars :=
  ((s.dropWhile isWsChar).reverse.dropWhile isWsChar).reverse

/-- `string.IndexOf(pattern)`: index of the first occurrence of `pat` in the
subject, `none` when absent (the C# code tests `< 0`). -/
def indexOfSub (pat : Chars) : Chars → Option Nat
  | [] => if pat.isEmpty then some 0 else none
  | c :: tl =>
    if pat.isPrefixOf (c :: tl) then some 0
    else (indexOfSub pat tl).map (· + 1)

/-- `string.IndexOf(ch, start)`: first index `≥ start` holding `ch`. -/
def indexOfCharFrom (s : Chars) (ch : Char) (start : Nat) : Option Nat :=
  ((s.drop start).findIdx? (fun d => d == ch)).map (· + start)

/-- Value of a string of decimal digits. -/
def parseDigits (ds : Chars) : Nat :=
  ds.foldl (fun n c => n * 10 + (c.toNat - 48)) 0

/-- Model of `double.TryParse` with `NumberStyles.Float`: optional surrounding
whitespace, optional leading sign, decimal mantissa with optional fractional
part, optional `e`/`E` exponent.  `none` models a `false` return. -/
def parseDouble (s0 : Chars) : Option ℚ :=
  let s1 := trimWs s0
  let sgn : ℚ := if s1.head? = some '-' then -1 else 1
  let s2 := if s1.head? = some '-' ∨ s1.head? = some '+' then s1.tail else s1
  let mant := s2.takeWhile (fun c => !(c == 'e' || c == 'E'))
  let erest := s2.drop mant.length
  let ipart := mant.takeWhile (fun c => c.isDigit)
  let afterI := mant.drop ipart.length
  let fpart : Option Chars :=
    match afterI with
    | [] => some []
    | '.' :: f => if f.all (fun c => c.isDigit) then some f else none
    | _ => none
  match fpart with
  | none => none
  | some f =>
    if ipart.length + f.length = 0 then none
    else
      let m : ℚ := natQ (parseDigits ipart) + natQ (parseDigits f) / natQ (10 ^ f.length)
      match erest with
      | [] => some (sgn * m)
      | _ :: et =>
        let ed := if et.head? = some '-' ∨ et.head? = some '+' then et.tail else et
        if ed ≠ [] ∧ ed.all (fun c => c.isDigit) then
          if et.head? = some '-' then some (sgn * m / natQ (10 ^ parseDigits ed))
          else some (sgn * m * natQ (10 ^ parseDigits ed))
        else none

/-- Model of `int.TryParse` with `NumberStyles.Integer`: optional surrounding
whitespace, optional sign, decimal digits, 32-bit range. -/
def parseIntC (s0 : Chars) : Option Int :=
  let s1 := trimWs s0
  let sgn : Int := if s1.head? = some '-' then -1 else 1
  let s2 := if s1.head? = some '-' ∨ s1.head? = some '+' then s1.tail else s1
  if s2 ≠ [] ∧ s2.all (fun c => c.isDigit) then
    let v := sgn * (parseDigits s2 : Int)
    if -2147483648 ≤ v ∧ v ≤ 2147483647 then some v else none
  else none

/-- `Math.Round(double)`: round to the nearest integer, ties to even. -/
def mathRound (q : ℚ) : ℤ :=
  let f : ℤ := Int.fdiv q.num (q.den : ℤ)
  let frac : ℚ := q - intQ f
  if frac < 1 / 2 then f
  else if 1 / 2 < frac then f + 1
  else if f % 2 = 0 then f else f + 1

/-- The textual pattern `"key":` that `ExtractJsonValue` searches for. -/
def keyPattern (key : Chars) : Chars := '\"' :: (key ++ ['\"', ':'])

/-- `ExtractJsonValue(json, key)` (OpenGamma.cs lines 265-291): locate
`"key":`, skip whitespace, then return the quoted string value (up to the next
quote) or the raw token up to the next `,` or `}`, trimmed.  `none` models the
C# `null` return. -/
def extractJsonValue (json : Chars) (key : Chars) : Option Chars :=
  match indexOfSub (keyPattern key) json with
  | none => none
  | some i =>
    let rest := (json.drop (i + (keyPattern key).length)).dropWhile isWsChar
    match rest with
    | [] => none
    | c :: tl =>
      if c = '\"' then
        match tl.findIdx? (fun d => d == '\"') with
        | none => none
        | some j => some (tl.take j)
      else some (trimWs (rest.takeWhile (fun d => !(d == ',' || d == '\x7d'))))

/-- `ExtractNum(json, key)` (OpenGamma.cs lines 386-405): locate `"key"`, skip
three characters (quote, quote, colon) past the key, skip forward to the first
digit / `-` / `.`, scan the numeric token, and parse it; every failure yields
0. -/
def extractNum (json : Chars) (key : Chars) : ℚ :=
  match indexOfSub ('\"' :: (key ++ ['\"'])) json with
  | none => 0
  | some keyIdx =>
    let rest := (json.drop (keyIdx + key.length + 3)).dropWhile
      (fun c => !(c.isDigit || c == '-' || c == '.'))
    match rest with
    | [] => 0
    | _ :: _ =>
      let tok := rest.takeWhile
        (fun c => c.isDigit || c == '.' || c == '-' || c == 'e' || c == 'E' || c == '+')
      (parseDouble tok).getD 0

/-- The bracket-depth scan of `ParseGammaLevels` (OpenGamma.cs lines 313-327):
starting at `arrStart`, find the index of the `]` that brings the running
bracket count back to zero; `none` models `arrEnd < 0`. -/
def matchBracketGo : Chars → Int → Nat → Option Nat
  | [], _, _ => none
  | c :: tl, cnt, i =>
    if c == '[' then matchBracketGo tl (cnt + 1) (i + 1)
    else if c == ']' then
      if cnt - 1 = 0 then some i else matchBracketGo tl (cnt - 1) (i + 1)
    else matchBracketGo tl cnt (i + 1)

def matchBracket (json : Chars) (arrStart : Nat) : Option Nat :=
  matchBracketGo (json.drop arrStart) 0 arrStart

/-- The brace-depth object scan of `ParseGammaLevels` (OpenGamma.cs lines
334-356): collect each balanced `{...}` substring found at depth 1 of the
array content, in order.  `cur` carries the reversed characters of the object
currently open (C# `currentStart ≥ 0`). -/
def scanObjectsGo : Chars → Int → Option Chars → List Chars → List Chars
  | [], _, _, acc => acc.reverse
  | c :: tl, depth, cur, acc =>
    if c == '\x7b' then
      if depth = 0 then scanObjectsGo tl (depth + 1) (some [c]) acc
      else scanObjectsGo tl (depth + 1) (cur.map (fun r => c :: r)) acc
    else if c == '\x7d' then
      match cur with
      | some r =>
        if depth - 1 = 0 then scanObjectsGo tl (depth - 1) none ((c :: r).reverse :: acc)
        else scanObjectsGo tl (depth - 1) (some (c :: r)) acc
      | none => scanObjectsGo tl (depth - 1) none acc
    else scanObjectsGo tl depth (cur.map (fun r => c :: r)) acc

def scanObjects (s : Chars) : List Chars := scanObjectsGo s 0 none []

/-- One adjusted gamma level (the C# `GammaLevel` struct). -/
structure GammaLevel where
  Strike : ℚ
  Gex : ℚ
  FuturesPrice : ℚ
  IsResistance : Bool
deriving DecidableEq

def waitingLabel : Chars := ("WAITING").toList

def unknownLabel : Chars := ("UNKNOWN").toList

def ndxSymbol : Chars := ("NDX").toList

def spxSymbol : Chars := ("SPX").toList

def regimeKey : Chars := ("regime").toList

def regimeCodeKey : Chars := ("regime_code").toList

def spotNdxKey : Chars := ("spot_ndx").toList

def spotSpxKey : Chars := ("spot_spx").toList

def strikeKey : Chars := ("strike").toList

def gexKey : Chars := ("gex").toList

/-- The raw record decoded from one `{...}` object: its `strike` and `gex`
numbers (OpenGamma.cs lines 368-369). -/
def decodeRawLevel (objJson : Chars) : ℚ × ℚ :=
  (extractNum objJson strikeKey, extractNum objJson gexKey)

/-- The adjusted level built from a raw `(strike, gex)` record and the current
spread (OpenGamma.cs lines 373-380). -/
def mkAdjusted (sprd : ℚ) (r : ℚ × ℚ) : GammaLevel :=
  { Strike := r.1, Gex := r.2, FuturesPrice := r.1 - sprd, IsResistance := decide (0 < r.2) }

/-- `ParseGammaLevelObject` (OpenGamma.cs lines 361-384): decode the record
and, when its strike is positive, append the adjusted level. -/
def parseGammaLevelObject (sprd : ℚ) (acc : List GammaLevel) (objJson : Chars) :
    List GammaLevel :=
  let r := decodeRawLevel objJson
  if 0 < r.1 then acc ++ [mkAdjusted sprd r] else acc

/-- The array key selected by symbol affinity (OpenGamma.cs line 295). -/
def levelsKeyFor (sym : Chars) : Chars :=
  if sym = ndxSymbol then ("gamma_levels_ndx").toList else ("gamma_levels_spx").toList

/-- The pattern `"levelsKey"` searched by `ParseGammaLevels` (line 301). -/
def levelsPattern (sym : Chars) : Chars := '\"' :: (levelsKeyFor sym ++ ['\"'])

/-- The object substrings of the selected gamma-levels array: the key lookup,
bracket matching and object scan of `ParseGammaLevels` (OpenGamma.cs lines
299-356); every failure (missing key, missing `[`, unterminated array,
whitespace-only content) yields the empty list. -/
def rawLevelObjects (sym : Chars) (json : Chars) : List Chars :=
  match indexOfSub (levelsPattern sym) json with
  | none => []
  | some keyIdx =>
    match indexOfCharFrom json '[' keyIdx with
    | none => []
    | some arrStart =>
      match matchBracket json arrStart with
      | none => []
      | some arrEnd =>
        let arrContent := (json.drop (arrStart + 1)).take (arrEnd - (arrStart + 1))
        if arrContent.all isWsChar then [] else scanObjects arrContent

/-- `ParseGammaLevels` (OpenGamma.cs lines 293-359): clear the stored list
(the `prior` argument is discarded, mirroring `gammaLevels.Clear()`), then
fold the per-object parser over the decoded array objects. -/
def parseGammaLevels (sprd : ℚ) (sym : Chars) (json : Chars)
    (_prior : List GammaLevel) : List GammaLevel :=
  (rawLevelObjects sym json).foldl (parseGammaLevelObject sprd) []

/-- The mutable indicator fields guarded by `lockObj` (OpenGamma.cs lines
37-53), as one aggregate. -/
structure OGState where
  currentRegime : Chars
  previousRegime : Chars
  regimeCode : Int
  lastUpdate : Chars
  indexPrice : ℚ
  futuresPrice : ℚ
  spread : ℚ
  indexSymbol : Chars
  lastClosePrice : ℚ
  gammaLevels : List GammaLevel
deriving DecidableEq

/-- The field initializers of OpenGamma.cs lines 38-53, with the symbol
affinity chosen at `DataLoaded`. -/
def initialState (sym : Chars) : OGState :=
  { currentRegime := waitingLabel, previousRegime := ("---").toList, regimeCode := 0,
    lastUpdate := [], indexPrice := 0, futuresPrice := 0, spread := 0,
    indexSymbol := sym, lastClosePrice := 0, gammaLevels := [] }

/-- The part of `ParseRegimeUpdate` run on the socket thread under the lock
(OpenGamma.cs lines 189-217): regime label shift, current label, numeric code,
timestamp, and the affinity-selected index price (assigned the `TryParse`
output unconditionally, 0 on failure). -/
def applyPhase1 (now : Chars) (json : Chars) (s : OGState) : OGState :=
  let newRegime := (extractJsonValue json regimeKey).getD unknownLabel
  let prev :=
    if s.currentRegime ≠ waitingLabel ∧ s.currentRegime ≠ newRegime then s.currentRegime
    else s.previousRegime
  let code := ((extractJsonValue json regimeCodeKey).bind parseIntC).getD 0
  let idx :=
    if s.indexSymbol = ndxSymbol then
      ((extractJsonValue json spotNdxKey).bind parseDouble).getD 0
    else if s.indexSymbol = spxSymbol then
      ((extractJsonValue json spotSpxKey).bind parseDouble).getD 0
    else s.indexPrice
  { s with currentRegime := newRegime, previousRegime := prev, regimeCode := code,
           lastUpdate := now, indexPrice := idx }

/-- The closure posted to `ChartControl.Dispatcher` (OpenGamma.cs lines
229-249): when the sampled close price is known, record it as the futures
price, recompute the integer spread when the index price is also known, and
recompute the gamma-level list with the just-updated spread. -/
def applyDispatch (json : Chars) (s : OGState) : OGState :=
  if 0 < s.lastClosePrice then
    let fp := s.lastClosePrice
    let sp :=
      if 0 < s.indexPrice then intQ (mathRound s.indexPrice - mathRound fp) else s.spread
    { s with futuresPrice := fp, spread := sp,
             gammaLevels := parseGammaLevels sp s.indexSymbol json s.gammaLevels }
  else s

/-- `ParseRegimeUpdate` (OpenGamma.cs lines 185-263): the socket-thread part,
followed by the dispatcher part when the chart control exists (`ChartControl
!= null`). -/
def parseRegimeUpdate (chartControl : Bool) (now : Chars) (json : Chars)
    (s : OGState) : OGState :=
  let s1 := applyPhase1 now json s
  if chartControl then applyDispatch json s1 else s1

def c1RoundTripLine : Chars :=
  ("\x7b\"gamma_levels_spx\":[\x7b\"strike\":100,\"gex\":5000\x7d,\x7b\"strike\":110,\"gex\":-3000\x7d]\x7d").toList

def c2wState : OGState := { initialState spxSymbol with currentRegime := ("TREND").toList }

def c2wLine : Chars := ("\x7b\"regime\":\"CHOP\"\x7d").toList

def c3wState : OGState :=
  { initialState ndxSymbol with indexPrice := 150006 / 10, lastClosePrice := 150021 / 10 }

def c5Line : Chars := ("\x7b\"regime\":\"BULL\"\x7d").toList

def c5State : OGState := { initialState ndxSymbol with indexPrice := 100 }

def c7Line : Chars :=
  ("\x7b\"regime\":\"BULL\",\"regime_code\":2,\"gamma_levels_spx\":[\x7b\"strike\":1").toList

def c7State : OGState :=
  { initialState spxSymbol with lastClosePrice := 1, gammaLevels := [⟨1, 1, 1, true⟩] }

def c7wLine : Chars := ("\x7b\"gamma_levels_spx\":[\x7b\"strike\":1").toList

def c8Line : Chars := ("\x7b\"regime\":").toList

def c8wLine : Chars := ("\x7b\"foo\":1\x7d").toList

def c10aLine : Chars :=
  ("\x7b\"gamma_levels_spx\":[\x7b\"strike\":5,\"gex\":1\x7d]\x7d").toList

def c10bLine : Chars := ("\x7b\"nothing\":1\x7d").toList

def c10cLine : Chars := ("\x7b\"gamma_levels_spx\":[\x7b\"strike\":7").toList

def c10dLine : Chars :=
  ("\x7b\"gamma_levels_spx\":[\x7b\"strike\":0,\"gex\":5\x7d]\x7d").toList

def c10Prior : List GammaLevel := [⟨9, 9, 9, true⟩]

-- ------------------------------------------------------------------
-- Theorems
-- ------------------------------------------------------------------

lemma natQ_eq (n : ℕ) : natQ n = (n : ℚ) := by
  apply Rat.ext <;> simp [natQ]

lemma intQ_eq (n : ℤ) : intQ n = (n : ℚ) := by
  apply Rat.ext <;> simp [intQ]

example : parseDouble (("15000.6").toList) = some (150006 / 10) := by with_unfolding_all rfl

example : parseDouble (("-3e2").toList) = some (-300) := by with_unfolding_all rfl

example : parseDouble (("abc").toList) = none := by with_unfolding_all rfl

example : parseDouble (("").toList) = none := by with_unfolding_all rfl

example : parseIntC (("2").toList) = some 2 := by with_unfolding_all rfl

example : mathRound (150006 / 10) = 15001 := by with_unfolding_all rfl

example : mathRound (150021 / 10) = 15002 := by with_unfolding_all rfl

example : mathRound (5 / 2) = 2 := by with_unfolding_all rfl

example : mathRound (7 / 2) = 4 := by with_unfolding_all rfl

example : mathRound (-5 / 2) = -2 := by with_unfolding_all rfl

example :
    extractJsonValue (("\x7b\"regime\":\"BULL\"\x7d").toList) regimeKey
      = some (("BULL").toList) := by with_unfolding_all rfl

example :
    extractJsonValue (("\x7b\"regime_code\":2,\"x\":1\x7d").toList) regimeCodeKey
      = some (("2").toList) := by with_unfolding_all rfl

example :
    extractJsonValue (("\x7b\"regime\":").toList) regimeKey = none := by
  with_unfolding_all rfl

example : extractNum (("\x7b\"strike\":100,\"gex\":5000\x7d").toList) strikeKey = 100 := by
  with_unfolding_all rfl

example : extractNum (("\x7b\"strike\":110,\"gex\":-3000\x7d").toList) gexKey = -3000 := by
  with_unfolding_all rfl

example :
    scanObjects (("\x7b\"a\":1\x7d, \x7b\"b\":2\x7d").toList)
      = [("\x7b\"a\":1\x7d").toList, ("\x7b\"b\":2\x7d").toList] := by
  with_unfolding_all rfl

example :
    parseGammaLevels 2 spxSymbol
      (("\x7b\"gamma_levels_spx\":[\x7b\"strike\":100,\"gex\":5000\x7d,\x7b\"strike\":110,\"gex\":-3000\x7d]\x7d").toList)
      []
      = [⟨100, 5000, 98, true⟩, ⟨110, -3000, 108, false⟩] := by
  with_unfolding_all rfl

example :
    parseGammaLevels 2 spxSymbol (("\x7b\"gamma_levels_spx\":[\x7b\"strike\":1").toList)
      [⟨1, 1, 1, true⟩] = [] := by with_unfolding_all rfl

example :
    (parseRegimeUpdate true (("10:00:00").toList)
        (("\x7b\"regime\":\"BULL\",\"regime_code\":2,\"spot_spx\":5000.4\x7d").toList)
        { initialState spxSymbol with lastClosePrice := 4998 / 1 }).spread
      = 2 := by with_unfolding_all rfl

example :
    (parseRegimeUpdate true (("10:00:00").toList)
        (("\x7b\"regime\":\"BULL\",\"regime_code\":2,\"spot_spx\":5000.4\x7d").toList)
        { initialState spxSymbol with lastClosePrice := 4998 / 1 }).currentRegime
      = ("BULL").toList := by with_unfolding_all rfl

example :
    (parseRegimeUpdate false [] (("\x7b\x7d").toList)
        (initialState ndxSymbol)).currentRegime = unknownLabel := by
  with_unfolding_all rfl

lemma applyPhase1_spread (now json : Chars) (s : OGState) :
    (applyPhase1 now json s).spread = s.spread := rfl

lemma applyPhase1_futuresPrice (now json : Chars) (s : OGState) :
    (applyPhase1 now json s).futuresPrice = s.futuresPrice := rfl

lemma applyPhase1_lastClosePrice (now json : Chars) (s : OGState) :
    (applyPhase1 now json s).lastClosePrice = s.lastClosePrice := rfl

lemma applyPhase1_gammaLevels (now json : Chars) (s : OGState) :
    (applyPhase1 now json s).gammaLevels = s.gammaLevels := rfl

lemma applyPhase1_indexSymbol (now json : Chars) (s : OGState) :
    (applyPhase1 now json s).indexSymbol = s.indexSymbol := rfl

lemma applyDispatch_currentRegime (json : Chars) (s : OGState) :
    (applyDispatch json s).currentRegime = s.currentRegime := by
  unfold applyDispatch; split <;> rfl

lemma applyDispatch_previousRegime (json : Chars) (s : OGState) :
    (applyDispatch json s).previousRegime = s.previousRegime := by
  unfold applyDispatch; split <;> rfl

lemma applyDispatch_regimeCode (json : Chars) (s : OGState) :
    (applyDispatch json s).regimeCode = s.regimeCode := by
  unfold applyDispatch; split <;> rfl

lemma applyDispatch_lastUpdate (json : Chars) (s : OGState) :
    (applyDispatch json s).lastUpdate = s.lastUpdate := by
  unfold applyDispatch; split <;> rfl

lemma applyDispatch_indexPrice (json : Chars) (s : OGState) :
    (applyDispatch json s).indexPrice = s.indexPrice := by
  unfold applyDispatch; split <;> rfl

lemma applyDispatch_spread_eq (json : Chars) (s : OGState) :
    (applyDispatch json s).spread =
      if 0 < s.lastClosePrice ∧ 0 < s.indexPrice then
        intQ (mathRound s.indexPrice - mathRound s.lastClosePrice)
      else s.spread := by
  unfold applyDispatch
  by_cases h1 : 0 < s.lastClosePrice <;> by_cases h2 : 0 < s.indexPrice <;>
    simp [h1, h2]

lemma applyDispatch_futuresPrice_eq (json : Chars) (s : OGState) :
    (applyDispatch json s).futuresPrice =
      if 0 < s.lastClosePrice then s.lastClosePrice else s.futuresPrice := by
  unfold applyDispatch
  by_cases h1 : 0 < s.lastClosePrice <;> simp [h1]

lemma applyDispatch_gammaLevels_eq (json : Chars) (s : OGState) :
    (applyDispatch json s).gammaLevels =
      if 0 < s.lastClosePrice then
        parseGammaLevels (applyDispatch json s).spread s.indexSymbol json s.gammaLevels
      else s.gammaLevels := by
  unfold applyDispatch
  by_cases h1 : 0 < s.lastClosePrice <;> simp [h1]

lemma parseRegimeUpdate_currentRegime (cc : Bool) (now json : Chars) (s : OGState) :
    (parseRegimeUpdate cc now json s).currentRegime
      = (extractJsonValue json regimeKey).getD unknownLabel := by
  cases cc with
  | false => rfl
  | true =>
    show (applyDispatch json (applyPhase1 now json s)).currentRegime = _
    rw [applyDispatch_currentRegime]
    rfl

lemma parseRegimeUpdate_previousRegime (cc : Bool) (now json : Chars) (s : OGState) :
    (parseRegimeUpdate cc now json s).previousRegime
      = (if s.currentRegime ≠ waitingLabel ∧
            s.currentRegime ≠ (extractJsonValue json regimeKey).getD unknownLabel
         then s.currentRegime else s.previousRegime) := by
  cases cc with
  | false => rfl
  | true =>
    show (applyDispatch json (applyPhase1 now json s)).previousRegime = _
    rw [applyDispatch_previousRegime]
    rfl

lemma foldl_levelObject (sprd : ℚ) (objs : List Chars) :
    ∀ acc : List GammaLevel,
      objs.foldl (parseGammaLevelObject sprd) acc =
        acc ++ ((objs.map decodeRawLevel).filter
          (fun r => decide (0 < r.1))).map (mkAdjusted sprd) := by
  induction objs with
  | nil => intro acc; simp
  | cons o t ih =>
    intro acc
    simp only [List.foldl_cons, List.map_cons, List.filter_cons]
    rw [ih]
    by_cases h : 0 < (decodeRawLevel o).1
    · simp [parseGammaLevelObject, h, List.append_assoc]
    · simp [parseGammaLevelObject, h]

lemma parseGammaLevels_eq (sprd : ℚ) (sym json : Chars) (prior : List GammaLevel) :
    parseGammaLevels sprd sym json prior =
      (((rawLevelObjects sym json).map decodeRawLevel).filter
        (fun r => decide (0 < r.1))).map (mkAdjusted sprd) := by
  unfold parseGammaLevels
  simpa using foldl_levelObject sprd (rawLevelObjects sym json) []

lemma rawLevelObjects_keyMissing {sym json : Chars}
    (h : indexOfSub (levelsPattern sym) json = none) : rawLevelObjects sym json = [] := by
  unfold rawLevelObjects
  rw [h]

lemma rawLevelObjects_unterminated {sym json : Chars} {ki as : Nat}
    (h1 : indexOfSub (levelsPattern sym) json = some ki)
    (h2 : indexOfCharFrom json '[' ki = some as)
    (h3 : matchBracket json as = none) : rawLevelObjects sym json = [] := by
  unfold rawLevelObjects
  simp only [h1, h2, h3]

lemma parseGammaLevels_of_raw_nil {sym json : Chars}
    (h : rawLevelObjects sym json = []) (sprd : ℚ) (prior : List GammaLevel) :
    parseGammaLevels sprd sym json prior = [] := by
  unfold parseGammaLevels
  rw [h]
  rfl

/-- Claim C1: for every raw decoded level list and spread value, the
recomputed gamma-level list contains exactly the raw records whose strike is
positive, in input order, each with adjusted level = strike − spread and
resistance flag = (exposure > 0); the stored list is replaced wholesale (the
`prior` list never appears in the result); in particular the raw list
[(100, 5000), (110, -3000)] with spread 2 yields (98, resistance) and
(108, support). -/
theorem c1_level_adjust (sprd : ℚ) (objs : List Chars) (sym json : Chars)
    (prior : List GammaLevel) :
    (objs.foldl (parseGammaLevelObject sprd) [] =
      ((objs.map decodeRawLevel).filter
        (fun r => decide (0 < r.1))).map (mkAdjusted sprd)) ∧
    (parseGammaLevels sprd sym json prior =
      (((rawLevelObjects sym json).map decodeRawLevel).filter
        (fun r => decide (0 < r.1))).map (mkAdjusted sprd)) ∧
    (parseGammaLevels 2 spxSymbol c1RoundTripLine [] =
      [⟨100, 5000, 98, true⟩, ⟨110, -3000, 108, false⟩]) := by
  refine ⟨by simpa using foldl_levelObject sprd objs [],
    parseGammaLevels_eq sprd sym json prior, ?_⟩
  with_unfolding_all rfl

/-- Claim C2: for every applied line whose regime field decodes to `X`, the
current label afterwards is `X`, and the previous label becomes the prior
current label exactly when that prior label was neither the "WAITING"
sentinel nor equal to `X`, and is otherwise untouched. -/
theorem c2_regime_shift (cc : Bool) (now json X : Chars) (s : OGState)
    (h : extractJsonValue json regimeKey = some X) :
    (parseRegimeUpdate cc now json s).currentRegime = X ∧
    (parseRegimeUpdate cc now json s).previousRegime =
      (if s.currentRegime ≠ waitingLabel ∧ s.currentRegime ≠ X then s.currentRegime
       else s.previousRegime) := by
  constructor
  · rw [parseRegimeUpdate_currentRegime, h]
    rfl
  · rw [parseRegimeUpdate_previousRegime, h]
    rfl

theorem c2_regime_shift_witness :
    (parseRegimeUpdate true [] c2wLine c2wState).currentRegime = ("CHOP").toList ∧
    (parseRegimeUpdate true [] c2wLine c2wState).previousRegime =
      (if c2wState.currentRegime ≠ waitingLabel ∧ c2wState.currentRegime ≠ ("CHOP").toList
       then c2wState.currentRegime else c2wState.previousRegime) :=
  c2_regime_shift true [] c2wLine (("CHOP").toList) c2wState (by with_unfolding_all rfl)

/-- Claim C3: when both the index price and the sampled instrument price are
positive, the dispatcher block recomputes the spread as round(index) −
round(instrument), each rounded to the nearest integer before subtracting. -/
theorem c3_spread_formula (json : Chars) (s : OGState)
    (h1 : 0 < s.lastClosePrice) (h2 : 0 < s.indexPrice) :
    (applyDispatch json s).spread =
      intQ (mathRound s.indexPrice - mathRound s.lastClosePrice) := by
  rw [applyDispatch_spread_eq]
  simp [h1, h2]

theorem c3_spread_formula_witness :
    0 < c3wState.lastClosePrice ∧ 0 < c3wState.indexPrice ∧
    (applyDispatch [] c3wState).spread = (-1 : ℚ) := by
  have h1 : 0 < c3wState.lastClosePrice := by with_unfolding_all decide
  have h2 : 0 < c3wState.indexPrice := by with_unfolding_all decide
  refine ⟨h1, h2, ?_⟩
  rw [c3_spread_formula [] c3wState h1 h2]
  with_unfolding_all rfl

/-- Claim C4: in every apply cycle the spread is recomputed exactly when the
chart dispatcher runs and both the sampled instrument price and the
just-updated index price are positive, and is otherwise left unchanged;
likewise the instrument-price field is overwritten exactly when the sampled
price is positive (and the dispatcher runs). -/
theorem c4_spread_frame (cc : Bool) (now json : Chars) (s : OGState) :
    ((parseRegimeUpdate cc now json s).spread =
      if cc = true ∧ 0 < s.lastClosePrice ∧ 0 < (applyPhase1 now json s).indexPrice then
        intQ (mathRound (applyPhase1 now json s).indexPrice - mathRound s.lastClosePrice)
      else s.spread) ∧
    ((parseRegimeUpdate cc now json s).futuresPrice =
      if cc = true ∧ 0 < s.lastClosePrice then s.lastClosePrice else s.futuresPrice) := by
  cases cc with
  | false =>
    constructor
    · show (applyPhase1 now json s).spread = _
      rw [applyPhase1_spread]
      simp
    · show (applyPhase1 now json s).futuresPrice = _
      rw [applyPhase1_futuresPrice]
      simp
  | true =>
    constructor
    · show (applyDispatch json (applyPhase1 now json s)).spread = _
      rw [applyDispatch_spread_eq, applyPhase1_lastClosePrice, applyPhase1_spread]
      simp
    · show (applyDispatch json (applyPhase1 now json s)).futuresPrice = _
      rw [applyDispatch_futuresPrice_eq, applyPhase1_lastClosePrice,
        applyPhase1_futuresPrice]
      simp

/-- Claim C5 counterexample: on a line with no `spot_ndx` field, a state with
NDX affinity and prior index price 100 does NOT keep its prior index price —
the code overwrites it with the failed-parse default 0, contradicting the
claim that an absent field leaves the prior index price unchanged. -/
theorem c5_counterexample :
    extractJsonValue c5Line spotNdxKey = none ∧
    c5State.indexPrice = 100 ∧
    (parseRegimeUpdate false [] c5Line c5State).indexPrice = 0 ∧
    ¬ ((parseRegimeUpdate false [] c5Line c5State).indexPrice = c5State.indexPrice) := by
  have hv : (parseRegimeUpdate false [] c5Line c5State).indexPrice = 0 := by
    with_unfolding_all rfl
  have hp : c5State.indexPrice = 100 := by with_unfolding_all rfl
  refine ⟨by with_unfolding_all rfl, hp, hv, ?_⟩
  rw [hv, hp]
  norm_num

/-- Claim C5 (amended): when the configured affinity selects a spot field, the
index price is always overwritten with the `TryParse` result of that field
(0 when the field is absent or unparsable — the source has no positivity
guard); only when no affinity is configured is the prior index price left
unchanged. -/
theorem c5_amended (cc : Bool) (now json : Chars) (s : OGState) :
    (parseRegimeUpdate cc now json s).indexPrice =
      (if s.indexSymbol = ndxSymbol then
        ((extractJsonValue json spotNdxKey).bind parseDouble).getD 0
       else if s.indexSymbol = spxSymbol then
        ((extractJsonValue json spotSpxKey).bind parseDouble).getD 0
       else s.indexPrice) := by
  cases cc with
  | false => rfl
  | true =>
    show (applyDispatch json (applyPhase1 now json s)).indexPrice = _
    rw [applyDispatch_indexPrice]
    rfl

/-- Claim C6: applying the same line twice through the update pipeline leaves
the previous label unchanged after the second application. -/
theorem c6_idempotent (cc : Bool) (now1 now2 json : Chars) (s : OGState) :
    (parseRegimeUpdate cc now2 json (parseRegimeUpdate cc now1 json s)).previousRegime
      = (parseRegimeUpdate cc now1 json s).previousRegime := by
  rw [parseRegimeUpdate_previousRegime, parseRegimeUpdate_currentRegime]
  simp

/-- Claim C7: whenever the selected gamma-levels array is unterminated (its
opening bracket has no matching closing bracket), recomputing the level list
yields the empty list, and the rest of the line's fields (regime label,
regime code) are still processed. -/
theorem c7_unterminated_array :
    (∀ (sprd : ℚ) (sym json : Chars) (prior : List GammaLevel) (ki arrs : Nat),
       indexOfSub (levelsPattern sym) json = some ki →
       indexOfCharFrom json '[' ki = some arrs →
       matchBracket json arrs = none →
       parseGammaLevels sprd sym json prior = []) ∧
    ((parseRegimeUpdate true [] c7Line c7State).gammaLevels = [] ∧
     (parseRegimeUpdate true [] c7Line c7State).currentRegime = ("BULL").toList ∧
     (parseRegimeUpdate true [] c7Line c7State).regimeCode = 2) := by
  constructor
  · intro sprd sym json prior ki arrs h1 h2 h3
    exact parseGammaLevels_of_raw_nil (rawLevelObjects_unterminated h1 h2 h3) sprd prior
  · exact ⟨by with_unfolding_all rfl, by with_unfolding_all rfl, by with_unfolding_all rfl⟩

theorem c7_unterminated_array_witness :
    parseGammaLevels 0 spxSymbol c7wLine [⟨1, 1, 1, true⟩] = [] :=
  c7_unterminated_array.1 0 spxSymbol c7wLine [⟨1, 1, 1, true⟩] 1 20
    (by with_unfolding_all rfl) (by with_unfolding_all rfl) (by with_unfolding_all rfl)

/-- Claim C8 counterexample: on the line `{"regime":` the key pattern
`"regime":` does occur, yet the scalar extractor still returns the absent
result — so "absent exactly when the key pattern does not occur" is false. -/
theorem c8_counterexample :
    ¬ ((extractJsonValue c8Line regimeKey = none) ↔
       (indexOfSub (keyPattern regimeKey) c8Line = none)) := by
  have h1 : extractJsonValue c8Line regimeKey = none := by with_unfolding_all rfl
  have h2 : indexOfSub (keyPattern regimeKey) c8Line = some 1 := by with_unfolding_all rfl
  intro hiff
  have h3 := hiff.mp h1
  rw [h2] at h3
  exact Option.noConfusion h3

/-- Claim C8 (amended): the scalar extractor returns the absent result
whenever the key pattern `"key":` does not occur in the line (an absent result
does not conversely imply the pattern was missing: the extractor is also
absent when the pattern occurs at the very end of the line or introduces an
unterminated quoted value); consequently, applying a line that contains no
regime key pattern sets the current label to "UNKNOWN". -/
theorem c8_amended :
    (∀ (json key : Chars), indexOfSub (keyPattern key) json = none →
       extractJsonValue json key = none) ∧
    (∀ (cc : Bool) (now json : Chars) (s : OGState),
       indexOfSub (keyPattern regimeKey) json = none →
       (parseRegimeUpdate cc now json s).currentRegime = unknownLabel) := by
  have hex : ∀ (json key : Chars), indexOfSub (keyPattern key) json = none →
      extractJsonValue json key = none := by
    intro json key h
    unfold extractJsonValue
    simp only [h]
  refine ⟨hex, ?_⟩
  intro cc now json s h
  rw [parseRegimeUpdate_currentRegime, hex json regimeKey h]
  rfl

theorem c8_amended_witness :
    extractJsonValue c8wLine regimeKey = none ∧
    (parseRegimeUpdate false [] c8wLine (initialState spxSymbol)).currentRegime
      = unknownLabel :=
  ⟨c8_amended.1 c8wLine regimeKey (by with_unfolding_all rfl),
   c8_amended.2 false [] c8wLine (initialState spxSymbol) (by with_unfolding_all rfl)⟩

/-- Claim C9: when the chart control is unavailable, applying a decoded line
still updates the current label, previous label, regime code, timestamp and
index price exactly as the socket-thread block computes them, but never
touches the instrument price, the spread, or the gamma-level list. -/
theorem c9_no_chart (now json : Chars) (s : OGState) :
    (parseRegimeUpdate false now json s).currentRegime
      = (extractJsonValue json regimeKey).getD unknownLabel ∧
    (parseRegimeUpdate false now json s).previousRegime
      = (if s.currentRegime ≠ waitingLabel ∧
            s.currentRegime ≠ (extractJsonValue json regimeKey).getD unknownLabel
         then s.currentRegime else s.previousRegime) ∧
    (parseRegimeUpdate false now json s).regimeCode
      = ((extractJsonValue json regimeCodeKey).bind parseIntC).getD 0 ∧
    (parseRegimeUpdate false now json s).lastUpdate = now ∧
    (parseRegimeUpdate false now json s).indexPrice
      = (if s.indexSymbol = ndxSymbol then
          ((extractJsonValue json spotNdxKey).bind parseDouble).getD 0
         else if s.indexSymbol = spxSymbol then
          ((extractJsonValue json spotSpxKey).bind parseDouble).getD 0
         else s.indexPrice) ∧
    (parseRegimeUpdate false now json s).futuresPrice = s.futuresPrice ∧
    (parseRegimeUpdate false now json s).spread = s.spread ∧
    (parseRegimeUpdate false now json s).gammaLevels = s.gammaLevels :=
  ⟨rfl, rfl, rfl, rfl, rfl, rfl, rfl, rfl⟩

/-- Claim C10: the level-list recomputation behaves as if it first cleared the
stored list: its result never depends on the prior stored list, and when the
selected array key is absent, the array is unterminated, or no raw record has
a positive strike, the stored list ends empty instead of retaining the prior
levels. -/
theorem c10_wholesale_replace :
    (∀ (sprd : ℚ) (sym json : Chars) (p q : List GammaLevel),
       parseGammaLevels sprd sym json p = parseGammaLevels sprd sym json q) ∧
    (∀ (sprd : ℚ) (sym json : Chars) (prior : List GammaLevel),
       indexOfSub (levelsPattern sym) json = none →
       parseGammaLevels sprd sym json prior = []) ∧
    (∀ (sprd : ℚ) (sym json : Chars) (prior : List GammaLevel) (ki arrs : Nat),
       indexOfSub (levelsPattern sym) json = some ki →
       indexOfCharFrom json '[' ki = some arrs →
       matchBracket json arrs = none →
       parseGammaLevels sprd sym json prior = []) ∧
    (∀ (sprd : ℚ) (sym json : Chars) (prior : List GammaLevel),
       (∀ r ∈ (rawLevelObjects sym json).map decodeRawLevel, ¬ (0 < r.1)) →
       parseGammaLevels sprd sym json prior = []) := by
  refine ⟨fun sprd sym json p q => rfl, ?_, ?_, ?_⟩
  · intro sprd sym json prior h
    exact parseGammaLevels_of_raw_nil (rawLevelObjects_keyMissing h) sprd prior
  · intro sprd sym json prior ki arrs h1 h2 h3
    exact parseGammaLevels_of_raw_nil (rawLevelObjects_unterminated h1 h2 h3) sprd prior
  · intro sprd sym json prior h
    rw [parseGammaLevels_eq]
    have hf : ((rawLevelObjects sym json).map decodeRawLevel).filter
        (fun r => decide (0 < r.1)) = [] := by
      rw [List.filter_eq_nil_iff]
      intro a ha
      simpa using h a ha
    rw [hf]
    rfl

theorem c10_wholesale_replace_witness :
    (parseGammaLevels 1 spxSymbol c10aLine c10Prior
      = parseGammaLevels 1 spxSymbol c10aLine []) ∧
    (parseGammaLevels 1 spxSymbol c10bLine c10Prior = []) ∧
    (parseGammaLevels 1 spxSymbol c10cLine c10Prior = []) ∧
    (parseGammaLevels 1 spxSymbol c10dLine c10Prior = []) :=
  ⟨c10_wholesale_replace.1 1 spxSymbol c10aLine c10Prior [],
   c10_wholesale_replace.2.1 1 spxSymbol c10bLine c10Prior (by with_unfolding_all rfl),
   c10_wholesale_replace.2.2.1 1 spxSymbol c10cLine c10Prior 1 20
     (by with_unfolding_all rfl) (by with_unfolding_all rfl) (by with_unfolding_all rfl),
   c10_wholesale_replace.2.2.2 1 spxSymbol c10dLine c10Prior (by
     intro r hr
     have hr2 : r = ((0 : ℚ), (5 : ℚ)) := by
       have hraw : (rawLevelObjects spxSymbol c10dLine).map decodeRawLevel
           = [((0 : ℚ), (5 : ℚ))] := by with_unfolding_all rfl
       rw [hraw] at hr
       simpa using hr
     rw [hr2]
     norm_num)⟩
